import Mathlib

/-!
Verification of `CourseDescriptor` (common/lib/xmodule/xmodule/course_module.py):
grading-policy resolution, test-center exam windows, the textbook
table-of-contents cache, and course date text.

Modelling conventions:
* `time.struct_time` values compare lexicographically on their fields, which
  matches chronological order, so times are modelled as `Nat` seconds since the
  epoch; `time.gmtime(0)` is `0`.
* `parse_time`/`strftime` live in the external `xmodule.timeparse` / stdlib
  collaborators, so parsing outcomes are passed in as data (`Option`) and
  formatting functions are universally-quantified parameters.
* Python's `d.get(k) or fallback` treats a present-but-empty string as falsy;
  this is modelled explicitly by `pyOrStr`.
* Fallible Python code (raising) is modelled with `Except String`.
-/

/-- One grader bucket of the grading policy: an entry of the `GRADER` list. -/
structure GraderSpec where
  type : String
  min_count : Nat
  drop_count : Nat
  short_label : Option String
  weight : Rat
deriving DecidableEq, Repr

/-- A raw grading policy dict with the keys `GRADER` and `GRADE_CUTOFFS`
(`GRADE_CUTOFFS` is a mapping label -> fraction, modelled as an assoc list). -/
structure RawPolicy where
  GRADER : List GraderSpec
  GRADE_CUTOFFS : List (String × Rat)
deriving DecidableEq, Repr

/-- A course-supplied override mapping: any subset of
`{GRADER, GRADE_CUTOFFS}` may be present (`none` = key absent). -/
structure CoursePolicy where
  GRADER : Option (List GraderSpec)
  GRADE_CUTOFFS : Option (List (String × Rat))
deriving DecidableEq, Repr

/-- The resolved `_grading_policy` dict: `RAW_GRADER` keeps the merged raw
grader list, `GRADER` holds the result of `grader_from_conf` (an external
collaborator in `xmodule.graders`, so its result type `G` is abstract). -/
structure GradingPolicy (G : Type) where
  RAW_GRADER : List GraderSpec
  GRADER : G
  GRADE_CUTOFFS : List (String × Rat)

/-- `CourseDescriptor.defaut_grading_policy` (sic): the hard-coded default
policy, four grader buckets and the cutoff `{Pass: 0.5}`. -/
def defaut_grading_policy : RawPolicy :=
  { GRADER := [
      { type := "Homework", min_count := 12, drop_count := 2,
        short_label := some "HW", weight := 0.15 },
      { type := "Lab", min_count := 12, drop_count := 2,
        short_label := none, weight := 0.15 },
      { type := "Midterm Exam", min_count := 1, drop_count := 0,
        short_label := some "Midterm", weight := 0.3 },
      { type := "Final Exam", min_count := 1, drop_count := 0,
        short_label := some "Final", weight := 0.4 }],
    GRADE_CUTOFFS := [("Pass", 0.5)] }

/-- `CourseDescriptor.set_grading_policy`: a `None` override becomes `{}`;
`grading_policy.update(course_policy)` overwrites each of the two top-level
keys wholesale when present in the override (per-key `Option.getD`); then
`RAW_GRADER` keeps the merged list and `GRADER` is `grader_from_conf` of it. -/
def set_grading_policy {G : Type} (grader_from_conf : List GraderSpec → G)
    (course_policy : Option CoursePolicy) : GradingPolicy G :=
  let cp := course_policy.getD { GRADER := none, GRADE_CUTOFFS := none }
  let merged_grader := cp.GRADER.getD defaut_grading_policy.GRADER
  let merged_cutoffs := cp.GRADE_CUTOFFS.getD defaut_grading_policy.GRADE_CUTOFFS
  { RAW_GRADER := merged_grader,
    GRADER := grader_from_conf merged_grader,
    GRADE_CUTOFFS := merged_cutoffs }

/-- C1: an override supplying only `GRADE_CUTOFFS` leaves the grader list
equal to the full hard-coded default list (Homework 12/2-drop/15%,
Lab 12/2-drop/15%, Midterm 1/0-drop/30%, Final 1/0-drop/40%) unchanged, both
as the raw list and as the input to `grader_from_conf`, while `GRADE_CUTOFFS`
equals the override's value; supplying a `GRADER` list replaces the entire
default list wholesale; a `None` override behaves as the empty mapping. -/
theorem claim_C1_grading_policy_merge {G : Type}
    (grader_from_conf : List GraderSpec → G)
    (cutoffs : List (String × Rat)) (gl : List GraderSpec) :
    (set_grading_policy grader_from_conf
        (some { GRADER := none, GRADE_CUTOFFS := some cutoffs })).RAW_GRADER =
      [{ type := "Homework", min_count := 12, drop_count := 2,
         short_label := some "HW", weight := 0.15 },
       { type := "Lab", min_count := 12, drop_count := 2,
         short_label := none, weight := 0.15 },
       { type := "Midterm Exam", min_count := 1, drop_count := 0,
         short_label := some "Midterm", weight := 0.3 },
       { type := "Final Exam", min_count := 1, drop_count := 0,
         short_label := some "Final", weight := 0.4 }] ∧
    (set_grading_policy grader_from_conf
        (some { GRADER := none, GRADE_CUTOFFS := some cutoffs })).RAW_GRADER =
      defaut_grading_policy.GRADER ∧
    (set_grading_policy grader_from_conf
        (some { GRADER := none, GRADE_CUTOFFS := some cutoffs })).GRADER =
      grader_from_conf defaut_grading_policy.GRADER ∧
    (set_grading_policy grader_from_conf
        (some { GRADER := none, GRADE_CUTOFFS := some cutoffs })).GRADE_CUTOFFS =
      cutoffs ∧
    (set_grading_policy grader_from_conf
        (some { GRADER := some gl, GRADE_CUTOFFS := some cutoffs })).RAW_GRADER = gl ∧
    (set_grading_policy grader_from_conf
        (some { GRADER := some gl, GRADE_CUTOFFS := none })).RAW_GRADER = gl ∧
    set_grading_policy grader_from_conf none =
      set_grading_policy grader_from_conf
        (some { GRADER := none, GRADE_CUTOFFS := none }) := by
  refine ⟨rfl, rfl, rfl, rfl, rfl, rfl, rfl⟩

/-! ## Test-center exams -/

/-- The raw `exam_info` mapping for one exam.  Date-string fields record
their parse outcome under the external `parse_time`: `none` = key absent,
`some none` = key present but unparseable (a `ValueError` that
`TestCenterExam._try_parse_time` swallows), `some (some t)` = parses to `t`. -/
structure ExamInfo where
  Exam_Series_Code : Option String
  Exam_Display_Name : Option String
  First_Eligible_Appointment_Date : Option (Option Nat)
  Last_Eligible_Appointment_Date : Option (Option Nat)
  Registration_Start_Date : Option (Option Nat)
  Registration_End_Date : Option (Option Nat)
deriving DecidableEq, Repr

/-- `TestCenterExam._try_parse_time`: absent key gives `None`; a present but
unparseable value logs a warning and also gives `None`. -/
def tryParseTime (field : Option (Option Nat)) : Option Nat :=
  field.join

/-- Python `d.get(k) or fallback`: an absent key and a present-but-empty
string both fall through to the fallback. -/
def pyOrStr (v : Option String) (fallback : String) : String :=
  match v with
  | none => fallback
  | some s => if s = "" then fallback else s

/-- A successfully constructed `CourseDescriptor.TestCenterExam`. -/
structure TestCenterExam where
  course_id : String
  exam_name : String
  exam_series_code : String
  display_name : String
  first_eligible_appointment_date : Nat
  last_eligible_appointment_date : Nat
  registration_start_date : Nat
  registration_end_date : Nat
deriving DecidableEq, Repr

/-- `TestCenterExam.__init__`: series code falls back (Python `or`) to the
exam name, display name falls back to the series code; the two eligibility
dates are required (`ValueError` if missing/unparseable);
`registration_start_date` defaults to the epoch and `registration_end_date`
to the last eligible date; then the three date-order validations run in
source order. -/
def mkTestCenterExam (course_id exam_name : String) (exam_info : ExamInfo) :
    Except String TestCenterExam :=
  let exam_series_code := pyOrStr exam_info.Exam_Series_Code exam_name
  let display_name := pyOrStr exam_info.Exam_Display_Name exam_series_code
  match tryParseTime exam_info.First_Eligible_Appointment_Date with
  | none => .error "First appointment date must be specified"
  | some first_eligible_appointment_date =>
    match tryParseTime exam_info.Last_Eligible_Appointment_Date with
    | none => .error "Last appointment date must be specified"
    | some last_eligible_appointment_date =>
      let registration_start_date :=
        (tryParseTime exam_info.Registration_Start_Date).getD 0
      let registration_end_date :=
        (tryParseTime exam_info.Registration_End_Date).getD
          last_eligible_appointment_date
      if registration_start_date > registration_end_date then
        .error "Registration start date must be before registration end date"
      else if first_eligible_appointment_date > last_eligible_appointment_date then
        .error "First appointment date must be before last appointment date"
      else if registration_end_date > last_eligible_appointment_date then
        .error "Registration end date must be before last appointment date"
      else
        .ok { course_id, exam_name, exam_series_code, display_name,
              first_eligible_appointment_date, last_eligible_appointment_date,
              registration_start_date, registration_end_date }

/-- `TestCenterExam.has_started`: strictly after the first eligible date. -/
def TestCenterExam.has_started (e : TestCenterExam) (now : Nat) : Bool :=
  now > e.first_eligible_appointment_date

/-- `TestCenterExam.has_ended`: strictly after the last eligible date. -/
def TestCenterExam.has_ended (e : TestCenterExam) (now : Nat) : Bool :=
  now > e.last_eligible_appointment_date

/-- `TestCenterExam.has_started_registration`: strictly after the
registration start date. -/
def TestCenterExam.has_started_registration (e : TestCenterExam) (now : Nat) : Bool :=
  now > e.registration_start_date

/-- `TestCenterExam.has_ended_registration`: strictly after the registration
end date. -/
def TestCenterExam.has_ended_registration (e : TestCenterExam) (now : Nat) : Bool :=
  now > e.registration_end_date

/-- `TestCenterExam.is_registering`: inclusive on both bounds. -/
def TestCenterExam.is_registering (e : TestCenterExam) (now : Nat) : Bool :=
  now ≥ e.registration_start_date && now ≤ e.registration_end_date

/-- `CourseDescriptor.current_test_center_exam`: filter to exams with
registration started and exam not ended; return the first of the filtered
list when it is non-empty (both the `> 1` and `== 1` branches return
`exams[0]`), else `None`. -/
def current_test_center_exam (test_center_exams : List TestCenterExam)
    (now : Nat) : Option TestCenterExam :=
  let exams := test_center_exams.filter
    (fun e => e.has_started_registration now && !(e.has_ended now))
  if exams.length > 1 then exams.head?
  else if exams.length = 1 then exams.head?
  else none

/-- C2: `TestCenterExam` construction succeeds exactly when both eligibility
dates are present and parseable and the three date-order validations pass
(with `registration_start_date` defaulted to the epoch and
`registration_end_date` to the last eligible date); every constructed exam
satisfies `registration_start ≤ registration_end ≤ last_eligible` and
`first_eligible ≤ last_eligible`. -/
theorem claim_C2_exam_construction_validation (course_id exam_name : String)
    (info : ExamInfo) :
    ((mkTestCenterExam course_id exam_name info).isOk = true ↔
      ∃ f l, tryParseTime info.First_Eligible_Appointment_Date = some f ∧
        tryParseTime info.Last_Eligible_Appointment_Date = some l ∧
        (tryParseTime info.Registration_Start_Date).getD 0 ≤
          (tryParseTime info.Registration_End_Date).getD l ∧
        f ≤ l ∧
        (tryParseTime info.Registration_End_Date).getD l ≤ l) ∧
    (∀ e, mkTestCenterExam course_id exam_name info = .ok e →
      e.registration_start_date ≤ e.registration_end_date ∧
      e.registration_end_date ≤ e.last_eligible_appointment_date ∧
      e.first_eligible_appointment_date ≤ e.last_eligible_appointment_date) := by
  obtain ⟨sc, dn, fe, le, rs, re⟩ := info
  simp only [mkTestCenterExam, tryParseTime]
  cases hfe : fe.join with
  | none => simp [hfe, Except.isOk, Except.toBool]
  | some f =>
    cases hle : le.join with
    | none => simp [hfe, hle, Except.isOk, Except.toBool]
    | some l =>
      simp only [hfe, hle]
      split_ifs with h1 h2 h3
      · simp only [Except.isOk, Except.toBool]
        constructor
        · constructor
          · intro h; exact absurd h (by simp)
          · rintro ⟨f', l', hf', hl', hle', _, _⟩
            cases hf'; cases hl'; omega
        · intro e he; exact absurd he (by simp)
      · simp only [Except.isOk, Except.toBool]
        constructor
        · constructor
          · intro h; exact absurd h (by simp)
          · rintro ⟨f', l', hf', hl', _, hfl', _⟩
            cases hf'; cases hl'; omega
        · intro e he; exact absurd he (by simp)
      · simp only [Except.isOk, Except.toBool]
        constructor
        · constructor
          · intro h; exact absurd h (by simp)
          · rintro ⟨f', l', hf', hl', _, _, hrel'⟩
            cases hf'; cases hl'; omega
        · intro e he; exact absurd he (by simp)
      · constructor
        · simp only [Except.isOk, Except.toBool]
          constructor
          · intro _; exact ⟨f, l, rfl, rfl, by omega, by omega, by omega⟩
          · intro _; trivial
        · intro e he
          cases he
          refine ⟨?_, ?_, ?_⟩ <;> dsimp only <;> omega

/-- Date-order invariants guaranteed by the construction-time validation of
`TestCenterExam.__init__` (shared helper). -/
theorem mkTestCenterExam_ok_invariants (course_id exam_name : String)
    (info : ExamInfo) (e : TestCenterExam)
    (he : mkTestCenterExam course_id exam_name info = .ok e) :
    e.registration_start_date ≤ e.registration_end_date ∧
    e.registration_end_date ≤ e.last_eligible_appointment_date ∧
    e.first_eligible_appointment_date ≤ e.last_eligible_appointment_date := by
  obtain ⟨sc, dn, fe, le, rs, re⟩ := info
  simp only [mkTestCenterExam, tryParseTime] at he
  cases hfe : fe.join with
  | none => rw [hfe] at he; exact absurd he (by simp)
  | some f =>
    cases hle : le.join with
    | none => rw [hfe, hle] at he; exact absurd he (by simp)
    | some l =>
      rw [hfe, hle] at he
      dsimp only at he
      split_ifs at he with h1 h2 h3
      cases he
      refine ⟨?_, ?_, ?_⟩ <;> dsimp only <;> omega

/-- An example exam-info mapping: both eligibility dates parse, registration
window `[5, 50]` inside eligibility `[10, 100]`. -/
def examInfoDemo : ExamInfo :=
  { Exam_Series_Code := none, Exam_Display_Name := none,
    First_Eligible_Appointment_Date := some (some 10),
    Last_Eligible_Appointment_Date := some (some 100),
    Registration_Start_Date := some (some 5),
    Registration_End_Date := some (some 50) }

/-- The exam constructed from `examInfoDemo`. -/
def examDemo : TestCenterExam :=
  { course_id := "org/course/run", exam_name := "Final",
    exam_series_code := "Final", display_name := "Final",
    first_eligible_appointment_date := 10,
    last_eligible_appointment_date := 100,
    registration_start_date := 5, registration_end_date := 50 }

/-- Witness for C2 at `examInfoDemo`. -/
theorem claim_C2_exam_construction_validation_witness :
    (mkTestCenterExam "org/course/run" "Final" examInfoDemo).isOk = true ∧
    (examDemo.registration_start_date ≤ examDemo.registration_end_date ∧
     examDemo.registration_end_date ≤ examDemo.last_eligible_appointment_date ∧
     examDemo.first_eligible_appointment_date ≤
       examDemo.last_eligible_appointment_date) :=
  ⟨(claim_C2_exam_construction_validation "org/course/run" "Final"
      examInfoDemo).1.mpr ⟨10, 100, rfl, rfl, by decide, by decide, by decide⟩,
   (claim_C2_exam_construction_validation "org/course/run" "Final"
      examInfoDemo).2 examDemo rfl⟩

/-- C7: any exam spec whose parsed dates satisfy
`registration_start ≤ registration_end ≤ last_eligible` and
`first_eligible ≤ last_eligible` constructs successfully, and the
constructed exam `is_registering()` exactly when
`registration_start ≤ now ≤ registration_end` (both bounds inclusive). -/
theorem claim_C7_is_registering_window (course_id exam_name : String)
    (info : ExamInfo) (f l now : Nat)
    (hf : tryParseTime info.First_Eligible_Appointment_Date = some f)
    (hl : tryParseTime info.Last_Eligible_Appointment_Date = some l)
    (hrs : (tryParseTime info.Registration_Start_Date).getD 0 ≤
      (tryParseTime info.Registration_End_Date).getD l)
    (hre : (tryParseTime info.Registration_End_Date).getD l ≤ l)
    (hfl : f ≤ l) :
    ∃ e, mkTestCenterExam course_id exam_name info = .ok e ∧
      e.registration_start_date = (tryParseTime info.Registration_Start_Date).getD 0 ∧
      e.registration_end_date = (tryParseTime info.Registration_End_Date).getD l ∧
      (e.is_registering now = true ↔
        e.registration_start_date ≤ now ∧ now ≤ e.registration_end_date) := by
  obtain ⟨sc, dn, fe, le, rs, re⟩ := info
  simp only [tryParseTime] at hf hl hrs hre
  refine ⟨{ course_id, exam_name,
            exam_series_code := pyOrStr sc exam_name,
            display_name := pyOrStr dn (pyOrStr sc exam_name),
            first_eligible_appointment_date := f,
            last_eligible_appointment_date := l,
            registration_start_date := rs.join.getD 0,
            registration_end_date := re.join.getD l }, ?_, rfl, rfl, ?_⟩
  · simp only [mkTestCenterExam, tryParseTime, hf, hl]
    split_ifs with h1 h2 h3 <;> first | omega | rfl
  · simp [TestCenterExam.is_registering, and_comm]

/-- Witness for C7 at `examInfoDemo` with `now = 30`. -/
theorem claim_C7_is_registering_window_witness :
    ∃ e, mkTestCenterExam "org/course/run" "Final" examInfoDemo = .ok e ∧
      e.registration_start_date =
        (tryParseTime examInfoDemo.Registration_Start_Date).getD 0 ∧
      e.registration_end_date =
        (tryParseTime examInfoDemo.Registration_End_Date).getD 100 ∧
      (e.is_registering 30 = true ↔
        e.registration_start_date ≤ 30 ∧ 30 ≤ e.registration_end_date) :=
  claim_C7_is_registering_window "org/course/run" "Final" examInfoDemo
    10 100 30 rfl rfl (by decide) (by decide) (by decide)

/-- C9: at the instant the current time equals `registration_start_date`,
`is_registering()` is true (inclusive `>=`) while `has_started_registration()`
is false (strict `>`), so `current_test_center_exam` does not select the exam
at the precise moment its registration opens. -/
theorem claim_C9_registration_open_boundary (course_id exam_name : String)
    (info : ExamInfo) (e : TestCenterExam)
    (he : mkTestCenterExam course_id exam_name info = .ok e) :
    e.is_registering e.registration_start_date = true ∧
    e.has_started_registration e.registration_start_date = false ∧
    current_test_center_exam [e] e.registration_start_date = none := by
  obtain ⟨hrse, -, -⟩ :=
    mkTestCenterExam_ok_invariants course_id exam_name info e he
  refine ⟨?_, ?_, ?_⟩
  · simp [TestCenterExam.is_registering, hrse]
  · simp [TestCenterExam.has_started_registration]
  · simp [current_test_center_exam, TestCenterExam.has_started_registration]

/-- Witness for C9 at `examInfoDemo`. -/
theorem claim_C9_registration_open_boundary_witness :
    examDemo.is_registering examDemo.registration_start_date = true ∧
    examDemo.has_started_registration examDemo.registration_start_date = false ∧
    current_test_center_exam [examDemo] examDemo.registration_start_date = none :=
  claim_C9_registration_open_boundary "org/course/run" "Final" examInfoDemo
    examDemo rfl

/-- The first element of a filtered list is the first element of the original
list satisfying the predicate (shared helper). -/
theorem filter_head?_eq_find? {α : Type} (p : α → Bool) (xs : List α) :
    (xs.filter p).head? = xs.find? p := by
  induction xs with
  | nil => rfl
  | cons x xs ih =>
    by_cases hx : p x
    · simp [List.filter_cons, List.find?_cons, hx]
    · simp only [List.filter_cons, List.find?_cons, hx]
      simp [hx, ih]

/-- C4: `current_test_center_exam` filters to exams with registration started
and exam not ended; with more than one match it returns the first in original
order, with exactly one it returns that one, with none it returns `None` —
i.e. it always returns the first exam of the list passing the filter. -/
theorem claim_C4_current_exam_selection (test_center_exams : List TestCenterExam)
    (now : Nat) :
    current_test_center_exam test_center_exams now =
      test_center_exams.find?
        (fun e => e.has_started_registration now && !(e.has_ended now)) ∧
    ((test_center_exams.filter
        (fun e => e.has_started_registration now && !(e.has_ended now))).length > 1 →
      current_test_center_exam test_center_exams now =
        (test_center_exams.filter
          (fun e => e.has_started_registration now && !(e.has_ended now))).head?) ∧
    (∀ e, test_center_exams.filter
        (fun e => e.has_started_registration now && !(e.has_ended now)) = [e] →
      current_test_center_exam test_center_exams now = some e) ∧
    (test_center_exams.filter
        (fun e => e.has_started_registration now && !(e.has_ended now)) = [] →
      current_test_center_exam test_center_exams now = none) := by
  refine ⟨?_, ?_, ?_, ?_⟩
  · rw [current_test_center_exam, ← filter_head?_eq_find?]
    split_ifs with h1 h2
    · rfl
    · rfl
    · have : (test_center_exams.filter
        (fun e => e.has_started_registration now && !(e.has_ended now))).length = 0 := by
        omega
      rw [List.length_eq_zero] at this
      simp [this]
  · intro h1
    rw [current_test_center_exam]
    simp only [h1, if_pos]
  · intro e he
    rw [current_test_center_exam]
    simp [he]
  · intro he
    rw [current_test_center_exam]
    simp [he]

/-- Witness for C4: a two-exam list where both pass the filter at `now = 60`;
the first in declaration order is returned. -/
theorem claim_C4_current_exam_selection_witness :
    current_test_center_exam [examDemo, examDemo] 60 =
      [examDemo, examDemo].find?
        (fun e => e.has_started_registration 60 && !(e.has_ended 60)) ∧
    current_test_center_exam [examDemo, examDemo] 60 =
      ([examDemo, examDemo].filter
        (fun e => e.has_started_registration 60 && !(e.has_ended 60))).head? ∧
    current_test_center_exam [] 60 = none :=
  ⟨(claim_C4_current_exam_selection [examDemo, examDemo] 60).1,
   (claim_C4_current_exam_selection [examDemo, examDemo] 60).2.1 (by decide),
   (claim_C4_current_exam_selection [] 60).2.2.2 rfl⟩

/-- Field equations satisfied by every successfully constructed
`TestCenterExam` (shared helper). -/
theorem mkTestCenterExam_ok_fields (course_id exam_name : String)
    (info : ExamInfo) (e : TestCenterExam)
    (he : mkTestCenterExam course_id exam_name info = .ok e) :
    e.course_id = course_id ∧ e.exam_name = exam_name ∧
    e.exam_series_code = pyOrStr info.Exam_Series_Code exam_name ∧
    e.display_name =
      pyOrStr info.Exam_Display_Name (pyOrStr info.Exam_Series_Code exam_name) ∧
    tryParseTime info.First_Eligible_Appointment_Date =
      some e.first_eligible_appointment_date ∧
    tryParseTime info.Last_Eligible_Appointment_Date =
      some e.last_eligible_appointment_date ∧
    e.registration_start_date =
      (tryParseTime info.Registration_Start_Date).getD 0 ∧
    e.registration_end_date =
      (tryParseTime info.Registration_End_Date).getD
        e.last_eligible_appointment_date := by
  obtain ⟨sc, dn, fe, le, rs, re⟩ := info
  simp only [mkTestCenterExam, tryParseTime] at he ⊢
  cases hfe : fe.join with
  | none => rw [hfe] at he; exact absurd he (by simp)
  | some f =>
    cases hle : le.join with
    | none => rw [hfe, hle] at he; exact absurd he (by simp)
    | some l =>
      rw [hfe, hle] at he
      dsimp only at he
      split_ifs at he with h1 h2 h3
      cases he
      exact ⟨rfl, rfl, rfl, rfl, rfl, rfl, rfl, rfl⟩

/-- An exam-info mapping whose `Exam_Display_Name` is present but is the
empty string; `Exam_Series_Code` is present and non-empty. -/
def examInfoEmptyDisplay : ExamInfo :=
  { Exam_Series_Code := some "SC", Exam_Display_Name := some "",
    First_Eligible_Appointment_Date := some (some 10),
    Last_Eligible_Appointment_Date := some (some 100),
    Registration_Start_Date := none,
    Registration_End_Date := none }

/-- The exam constructed from `examInfoEmptyDisplay`. -/
def examEmptyDisplay : TestCenterExam :=
  { course_id := "org/course/run", exam_name := "x",
    exam_series_code := "SC", display_name := "SC",
    first_eligible_appointment_date := 10,
    last_eligible_appointment_date := 100,
    registration_start_date := 0, registration_end_date := 100 }

/-- Counterexample to C6 as stated: `Exam_Display_Name` is present (the empty
string), yet `display_name` is `"SC"` (the series code), not the field's
value `""` — Python's `or` treats a present-but-empty string as absent. -/
theorem claim_C6_counterexample :
    examInfoEmptyDisplay.Exam_Display_Name = some "" ∧
    (mkTestCenterExam "org/course/run" "x" examInfoEmptyDisplay).toOption.map
      TestCenterExam.display_name = some "SC" ∧
    ("SC" : String) ≠ "" :=
  ⟨rfl, rfl, by decide⟩

/-- C6 amended: for every successfully constructed `TestCenterExam`,
`exam_series_code` equals the `Exam_Series_Code` field when present and
non-empty and otherwise equals `exam_name`; `display_name` equals the
`Exam_Display_Name` field when present *and non-empty* and otherwise equals
`exam_series_code`; `registration_start_date` defaults to the epoch when
`Registration_Start_Date` is absent or unparseable; `registration_end_date`
defaults to `last_eligible_appointment_date` when `Registration_End_Date` is
absent or unparseable. -/
theorem claim_C6_exam_field_fallbacks_amended (course_id exam_name : String)
    (info : ExamInfo) (e : TestCenterExam)
    (he : mkTestCenterExam course_id exam_name info = .ok e) :
    (∀ s, info.Exam_Series_Code = some s → s ≠ "" → e.exam_series_code = s) ∧
    (info.Exam_Series_Code = none ∨ info.Exam_Series_Code = some "" →
      e.exam_series_code = exam_name) ∧
    (∀ s, info.Exam_Display_Name = some s → s ≠ "" → e.display_name = s) ∧
    (info.Exam_Display_Name = none ∨ info.Exam_Display_Name = some "" →
      e.display_name = e.exam_series_code) ∧
    (tryParseTime info.Registration_Start_Date = none →
      e.registration_start_date = 0) ∧
    (∀ t, tryParseTime info.Registration_Start_Date = some t →
      e.registration_start_date = t) ∧
    (tryParseTime info.Registration_End_Date = none →
      e.registration_end_date = e.last_eligible_appointment_date) ∧
    (∀ t, tryParseTime info.Registration_End_Date = some t →
      e.registration_end_date = t) := by
  obtain ⟨-, -, hsc, hdn, -, -, hrs, hre⟩ :=
    mkTestCenterExam_ok_fields course_id exam_name info e he
  refine ⟨?_, ?_, ?_, ?_, ?_, ?_, ?_, ?_⟩
  · intro s hs hne; rw [hsc, hs]; simp [pyOrStr, hne]
  · rintro (h | h) <;> rw [hsc, h] <;> simp [pyOrStr]
  · intro s hs hne; rw [hdn, hs]; simp [pyOrStr, hne]
  · rintro (h | h) <;> rw [hdn, h] <;> simp [pyOrStr] <;> exact hsc.symm
  · intro h; rw [hrs, h]; rfl
  · intro t ht; rw [hrs, ht]; rfl
  · intro h; rw [hre, h]; rfl
  · intro t ht; rw [hre, ht]; rfl

/-- Witness for the amended C6 at `examInfoEmptyDisplay`. -/
theorem claim_C6_exam_field_fallbacks_amended_witness :
    examEmptyDisplay.exam_series_code = "SC" ∧
    examEmptyDisplay.display_name = examEmptyDisplay.exam_series_code ∧
    examEmptyDisplay.registration_start_date = 0 ∧
    examEmptyDisplay.registration_end_date =
      examEmptyDisplay.last_eligible_appointment_date := by
  have h := claim_C6_exam_field_fallbacks_amended "org/course/run" "x"
    examInfoEmptyDisplay examEmptyDisplay rfl
  exact ⟨h.1 "SC" rfl (by decide), h.2.2.2.1 (Or.inr rfl),
    h.2.2.2.2.1 rfl, h.2.2.2.2.2.2.1 rfl⟩

/-! ## Course date text -/

/-- `CourseDescriptor.start_date_text`: try to parse the `advertised_start`
metadata key (`_try_parse_time` gives `None` when the key is absent or its
value unparseable); a present but unparseable value is returned verbatim;
otherwise display the parsed advertised start, falling back (Python `or`,
`struct_time` is always truthy) to `start`, and to the literal `"TBD"` when
both are absent.  `parse_time` and `strftime` are the external
`xmodule.timeparse` / stdlib collaborators, passed as parameters. -/
def start_date_text (parse_time : String → Option Nat) (strftime : Nat → String)
    (advertised_start : Option String) (start : Option Nat) : String :=
  let parsed_advertised_start := advertised_start.bind parse_time
  if parsed_advertised_start.isNone && advertised_start.isSome then
    advertised_start.getD ""
  else
    match parsed_advertised_start.or start with
    | none => "TBD"
    | some displayed_start => strftime displayed_start

/-- `CourseDescriptor.end_date_text`: `time.strftime("%b %d, %Y", self.end)`
with no `end` date raises a `TypeError` (stdlib `strftime` requires a
`struct_time`), modelled as `Except.error`. -/
def end_date_text (strftime : Nat → String) (course_end : Option Nat) :
    Except String String :=
  match course_end with
  | none => .error "TypeError: Tuple or struct_time argument required"
  | some t => .ok (strftime t)

/-- `CourseDescriptor.has_ended`: `False` when no end date is specified,
else `now > end`. -/
def has_ended (course_end : Option Nat) (now : Nat) : Bool :=
  match course_end with
  | none => false
  | some t => now > t

/-- C5: `start_date_text` resolution order — a parseable `advertised_start`
is formatted; a present but unparseable `advertised_start` is returned
verbatim; otherwise a set `start` is formatted; otherwise the literal
`"TBD"`. -/
theorem claim_C5_start_date_text_order (parse_time : String → Option Nat)
    (strftime : Nat → String) (advertised_start : Option String)
    (start : Option Nat) :
    (∀ s t, advertised_start = some s → parse_time s = some t →
      start_date_text parse_time strftime advertised_start start = strftime t) ∧
    (∀ s, advertised_start = some s → parse_time s = none →
      start_date_text parse_time strftime advertised_start start = s) ∧
    (∀ t, advertised_start = none → start = some t →
      start_date_text parse_time strftime advertised_start start = strftime t) ∧
    (advertised_start = none → start = none →
      start_date_text parse_time strftime advertised_start start = "TBD") := by
  refine ⟨?_, ?_, ?_, ?_⟩
  · intro s t hs ht; subst hs; simp [start_date_text, ht, Option.or]
  · intro s hs ht; subst hs; simp [start_date_text, ht]
  · intro t ha hs; subst ha; subst hs; simp [start_date_text, Option.or]
  · intro ha hs; subst ha; subst hs; simp [start_date_text, Option.or]

/-- An example `parse_time`: accepts one fixed timestamp string. -/
def parseTimeDemo (s : String) : Option Nat :=
  if s = "2012-09-05T12:00" then some 1346846400 else none

/-- An example `strftime`. -/
def strftimeDemo (t : Nat) : String :=
  "day " ++ toString (t / 86400)

/-- Witness for C5: all four branches at concrete inputs. -/
theorem claim_C5_start_date_text_order_witness :
    start_date_text parseTimeDemo strftimeDemo (some "2012-09-05T12:00") none =
      strftimeDemo 1346846400 ∧
    start_date_text parseTimeDemo strftimeDemo (some "Spring 2013") none =
      "Spring 2013" ∧
    start_date_text parseTimeDemo strftimeDemo none (some 86400) =
      strftimeDemo 86400 ∧
    start_date_text parseTimeDemo strftimeDemo none none = "TBD" :=
  ⟨(claim_C5_start_date_text_order parseTimeDemo strftimeDemo
      (some "2012-09-05T12:00") none).1 "2012-09-05T12:00" 1346846400 rfl rfl,
   (claim_C5_start_date_text_order parseTimeDemo strftimeDemo
      (some "Spring 2013") none).2.1 "Spring 2013" rfl rfl,
   (claim_C5_start_date_text_order parseTimeDemo strftimeDemo
      none (some 86400)).2.2.1 86400 rfl rfl,
   (claim_C5_start_date_text_order parseTimeDemo strftimeDemo
      none none).2.2.2 rfl rfl⟩

/-- C10: with no end date, `end_date_text` raises (a `TypeError` from
`strftime`) rather than returning a value, while `has_ended()` is total and
returns `False` in that same state; with an end date present,
`end_date_text` returns the formatted date. -/
theorem claim_C10_end_date_text_raises_on_none (strftime : Nat → String)
    (now : Nat) :
    (∃ msg, end_date_text strftime none = .error msg) ∧
    (end_date_text strftime none).isOk = false ∧
    has_ended none now = false ∧
    (∀ t, end_date_text strftime (some t) = .ok (strftime t)) :=
  ⟨⟨"TypeError: Tuple or struct_time argument required", rfl⟩, rfl, rfl,
   fun _ => rfl⟩

/-! ## Textbook table-of-contents cache -/

/-- The `seconds` component of a Python `timedelta` of `d` total seconds:
Python normalizes `timedelta` so `seconds` is the remainder after whole days,
i.e. floor-mod by 86400 (`Int.emod` has the same sign convention). -/
def timedeltaSeconds (d : Int) : Int :=
  d % 86400

/-- `CourseDescriptor.Textbook._get_toc_from_s3`: look up
`book_url + "toc.xml"` in the module-level `_cached_toc`; if the entry's
`age.seconds < 600` return the cached document, else fetch (network failure
raises), parse (parse failure raises) and store `(doc, now)` in the cache.
The network fetch and the XML parser are external collaborators
(`requests.get`, `etree.fromstring`), passed in as outcomes; the dict is an
assoc list where assignment is a shadowing cons (`List.lookup` returns the
newest binding); the returned `Bool` records whether a fetch happened. -/
def getTocFromS3 {Doc : Type} (fetchResult : Except String String)
    (parseXml : String → Except String Doc)
    (cached_toc : List (String × Doc × Int)) (book_url : String) (now : Int) :
    Except String (Doc × List (String × Doc × Int) × Bool) :=
  let toc_url := book_url ++ "toc.xml"
  let fetchFresh : Except String (Doc × List (String × Doc × Int) × Bool) :=
    match fetchResult with
    | .error err =>
      .error ("Error " ++ err ++
        ": Unable to retrieve textbook table of contents at " ++ toc_url)
    | .ok txt =>
      match parseXml txt with
      | .error err =>
        .error ("Error " ++ err ++
          ": Unable to parse XML for textbook table of contents at " ++ toc_url)
      | .ok table_of_contents =>
        .ok (table_of_contents, (toc_url, table_of_contents, now) :: cached_toc,
          true)
  match cached_toc.lookup toc_url with
  | some (table_of_contents, timestamp) =>
    if timedeltaSeconds (now - timestamp) < 600 then
      .ok (table_of_contents, cached_toc, false)
    else
      fetchFresh
  | none => fetchFresh

/-- C3 evaluation: a lookup 300 s after storing returns the cached document
with no fetch (as claimed); a lookup 700 s after storing refetches and
overwrites (as claimed); but a lookup 86400 s (one full day, far more than
600 s) after storing returns the stale cached document with no fetch,
because the code compares `timedelta.seconds` (the seconds-of-day component,
here 0) rather than the total age against 600 — contradicting the claim and
the code's own "expire every 10 minutes" comment. -/
theorem claim_C3_toc_cache_staleness_eval :
    @getTocFromS3 Nat (.ok "xml") (fun _ => .ok 2)
        [("utoc.xml", 1, 0)] "u" 300 =
      .ok (1, [("utoc.xml", 1, 0)], false) ∧
    @getTocFromS3 Nat (.ok "xml") (fun _ => .ok 2)
        [("utoc.xml", 1, 0)] "u" 700 =
      .ok (2, [("utoc.xml", 2, 700), ("utoc.xml", 1, 0)], true) ∧
    (86400 : Int) - 0 > 600 ∧
    @getTocFromS3 Nat (.ok "xml") (fun _ => .ok 2)
        [("utoc.xml", 1, 0)] "u" 86400 =
      .ok (1, [("utoc.xml", 1, 0)], false) :=
  ⟨rfl, rfl, by decide, rfl⟩

/-! ## Textbooks and per-item aggregation -/

/-- An XML element (`lxml` etree node): attributes and child elements. -/
inductive XTree : Type where
  | node : List (String × String) → List XTree → XTree

/-- The `attrib` mapping of an element. -/
def XTree.attrib : XTree → List (String × String)
  | .node a _ => a

/-- The child elements of an element. -/
def XTree.children : XTree → List XTree
  | .node _ c => c

/-- The `while last_el.getchildren(): last_el = last_el[-1]` loop of
`Textbook.__init__`: repeatedly descend into the last child. -/
def lastDescend : XTree → XTree
  | .node a cs =>
    match h : cs.getLast? with
    | none => .node a cs
    | some c => lastDescend c
termination_by t => sizeOf t
decreasing_by
  have hmem := List.mem_of_mem_getLast? h
  have := List.sizeOf_lt_of_mem hmem
  simp only [XTree.node.sizeOf_spec]
  omega

/-- A successfully constructed `CourseDescriptor.Textbook`. -/
structure Textbook where
  title : String
  book_url : String
  table_of_contents : XTree
  start_page : Int
  end_page : Int

/-- `Textbook.__init__`: obtain the table of contents for
`book_url + "toc.xml"` (fetch+parse, which may raise — the outcome per URL
is the parameter `getToc`); `start_page` is the integer `page` attribute of
the first top-level entry (`toc[0]`, `IndexError` on an empty root,
`KeyError` on a missing attribute, `ValueError` from `int()`); `end_page`
comes from descending into last children starting at `toc[-1]`.
`int()` is modelled by `String.toInt?`. -/
def mkTextbook (getToc : String → Except String XTree) (title book_url : String) :
    Except String Textbook := do
  let table_of_contents ← getToc (book_url ++ "toc.xml")
  let first_el ← match table_of_contents.children.head? with
    | some c => Except.ok c
    | none => Except.error "IndexError: list index out of range"
  let start_attr ← match first_el.attrib.lookup "page" with
    | some v => Except.ok v
    | none => Except.error "KeyError: page"
  let start_page ← match start_attr.toInt? with
    | some n => Except.ok n
    | none => Except.error "ValueError: invalid literal for int()"
  let last_top ← match table_of_contents.children.getLast? with
    | some c => Except.ok c
    | none => Except.error "IndexError: list index out of range"
  let last_el := lastDescend last_top
  let end_attr ← match last_el.attrib.lookup "page" with
    | some v => Except.ok v
    | none => Except.error "KeyError: page"
  let end_page ← match end_attr.toInt? with
    | some n => Except.ok n
    | none => Except.error "ValueError: invalid literal for int()"
  return { title, book_url, table_of_contents, start_page, end_page }

/-- The textbook aggregation loop of `CourseDescriptor.__init__`: each
`(title, book_url)` pair is tried, a raising constructor is logged and
skipped (`except: ... continue`), a successful one is appended. -/
def loadTextbooks (getToc : String → Except String XTree)
    (book_list : List (String × String)) : List Textbook :=
  match book_list with
  | [] => []
  | (title, book_url) :: rest =>
    match mkTextbook getToc title book_url with
    | .ok tb => tb :: loadTextbooks getToc rest
    | .error _ => loadTextbooks getToc rest

/-- The test-center exam aggregation loop of `CourseDescriptor.__init__`:
each exam name in `testcenter_info` is tried, a raising constructor is
logged and skipped (`except Exception: ... continue`). -/
def loadTestCenterExams (course_id : String)
    (testcenter_info : String → ExamInfo) (exam_names : List String) :
    List TestCenterExam :=
  match exam_names with
  | [] => []
  | exam_name :: rest =>
    match mkTestCenterExam course_id exam_name (testcenter_info exam_name) with
    | .ok e => e :: loadTestCenterExams course_id testcenter_info rest
    | .error _ => loadTestCenterExams course_id testcenter_info rest

/-- C8: both aggregation loops are total functions (a per-item failure never
propagates), produce exactly the successfully constructed items in order
(each failing item is dropped; the items after it are still constructed),
and dropping one failing item leaves the rest of the batch unchanged. -/
theorem claim_C8_per_item_failures_dropped
    (getToc : String → Except String XTree)
    (book_list : List (String × String)) (course_id : String)
    (testcenter_info : String → ExamInfo) (exam_names : List String) :
    loadTextbooks getToc book_list =
      book_list.filterMap (fun p => (mkTextbook getToc p.1 p.2).toOption) ∧
    loadTestCenterExams course_id testcenter_info exam_names =
      exam_names.filterMap (fun n =>
        (mkTestCenterExam course_id n (testcenter_info n)).toOption) ∧
    (∀ title book_url rest, (mkTextbook getToc title book_url).isOk = false →
      loadTextbooks getToc ((title, book_url) :: rest) =
        loadTextbooks getToc rest) ∧
    (∀ exam_name rest,
      (mkTestCenterExam course_id exam_name
        (testcenter_info exam_name)).isOk = false →
      loadTestCenterExams course_id testcenter_info (exam_name :: rest) =
        loadTestCenterExams course_id testcenter_info rest) := by
  refine ⟨?_, ?_, ?_, ?_⟩
  · induction book_list with
    | nil => rfl
    | cons p rest ih =>
      obtain ⟨title, book_url⟩ := p
      cases hb : mkTextbook getToc title book_url <;>
        simp [loadTextbooks, hb, List.filterMap_cons, Except.toOption, ih]
  · induction exam_names with
    | nil => rfl
    | cons n rest ih =>
      cases hb : mkTestCenterExam course_id n (testcenter_info n) <;>
        simp [loadTestCenterExams, hb, List.filterMap_cons, Except.toOption, ih]
  · intro title book_url rest hfail
    cases hb : mkTextbook getToc title book_url with
    | ok tb => rw [hb] at hfail; exact absurd hfail (by simp [Except.isOk, Except.toBool])
    | error msg => simp [loadTextbooks, hb]
  · intro exam_name rest hfail
    cases hb : mkTestCenterExam course_id exam_name (testcenter_info exam_name) with
    | ok e => rw [hb] at hfail; exact absurd hfail (by simp [Except.isOk, Except.toBool])
    | error msg => simp [loadTestCenterExams, hb]

/-- A one-element XML table of contents with page range 5–9. -/
def tocDemo : XTree :=
  .node [] [.node [("page", "5")] [.node [("page", "9")] []]]

/-- A `getToc` outcome table: one good URL, one URL whose fetch raises. -/
def getTocDemo (url : String) : Except String XTree :=
  if url = "goodtoc.xml" then .ok tocDemo
  else .error "ConnectionError"

/-- Witness for C8: a failing textbook between two good ones is dropped and
the others survive; a failing exam is dropped the same way. -/
theorem claim_C8_per_item_failures_dropped_witness :
    loadTextbooks getTocDemo [("a", "good"), ("b", "bad"), ("c", "good")] =
      [("a", "good"), ("b", "bad"), ("c", "good")].filterMap
        (fun p => (mkTextbook getTocDemo p.1 p.2).toOption) ∧
    loadTextbooks getTocDemo [("b", "bad"), ("c", "good")] =
      loadTextbooks getTocDemo [("c", "good")] ∧
    loadTestCenterExams "org/course/run"
        (fun _ => examInfoDemo) ["Final"] =
      ["Final"].filterMap (fun n =>
        (mkTestCenterExam "org/course/run" n examInfoDemo).toOption) :=
  ⟨(claim_C8_per_item_failures_dropped getTocDemo
      [("a", "good"), ("b", "bad"), ("c", "good")] "org/course/run"
      (fun _ => examInfoDemo) ["Final"]).1,
   (claim_C8_per_item_failures_dropped getTocDemo [] "org/course/run"
      (fun _ => examInfoDemo) []).2.2.1 "b" "bad" [("c", "good")] rfl,
   (claim_C8_per_item_failures_dropped getTocDemo
      [("a", "good"), ("b", "bad"), ("c", "good")] "org/course/run"
      (fun _ => examInfoDemo) ["Final"]).2.1⟩
